import Mathlib

/-!
Verification development for the Bengali text rendering helpers of the
Mahajampur-Madrasa ID card generator.

The embedded functions come from two Python source files:
* `backend/bengali_text_helper.py` — PIL-based rasterization of Bengali text
  (`render_bengali_text_to_image`, `render_bengali_paragraph_to_image`) and
  ReportLab canvas helpers (`draw_bn_text`, `draw_bn_multiline`,
  `register_bengali_fonts`).
* `backend/id_card_generator.py` — canvas text placement helpers
  (`draw_text`, `draw_centered_text`).

External collaborators (the filesystem, PIL's font loader and its text
measurement, ReportLab's paragraph wrapping and `stringWidth`) are modelled
as explicit parameters: a `FontEnv` records which font files exist and
whether `ImageFont.truetype` succeeds, and measurement is an arbitrary
function argument. Python exceptions become `Except RenderError`; Python
ints become `ℤ`; ReportLab's float coordinates become `ℚ`.
-/

namespace MadrasaCard

/-- The two font files the helper knows:
`NotoSansBengali-Regular.ttf` and `NotoSansBengali-Bold.ttf`. -/
inductive FontPath where
  | regular
  | bold
  deriving DecidableEq, Repr

/-- Exceptions raised by the Python helpers:
`FileNotFoundError` when a font file is missing,
`RuntimeError` when `ImageFont.truetype` fails. -/
inductive RenderError where
  | fileNotFound
  | runtimeError
  deriving DecidableEq, Repr

/-- Model of the external environment: which font files exist on disk
(`os.path.exists`), whether `ImageFont.truetype` succeeds for each file,
and the module-level `_FONTS_REGISTERED` flag. -/
structure FontEnv where
  regularExists : Bool
  boldExists : Bool
  truetypeOkRegular : Bool
  truetypeOkBold : Bool
  fontsRegistered : Bool
  deriving DecidableEq, Repr

/-- `os.path.exists(font_path)` for the two known font paths. -/
def pathExists (env : FontEnv) : FontPath → Bool
  | FontPath.regular => env.regularExists
  | FontPath.bold => env.boldExists

/-- Whether `ImageFont.truetype(font_path, font_size)` succeeds. -/
def truetypeOk (env : FontEnv) : FontPath → Bool
  | FontPath.regular => env.truetypeOkRegular
  | FontPath.bold => env.truetypeOkBold

/-- A PIL `textbbox` result `(left, top, right, bottom)`, in pixels. -/
structure BBox where
  left : ℤ
  top : ℤ
  right : ℤ
  bottom : ℤ
  deriving DecidableEq, Repr

/-- A text measurement collaborator: `dummy_draw.textbbox((0, 0), text, font)`
for the font loaded from a given path at a given size. -/
def Measure : Type := FontPath → ℤ → String → BBox

/-- The observable outcome of `render_bengali_text_to_image`: which font was
used and at what size, the allocated bitmap's dimensions, the position and
color of the single `draw.text` call, and the text drawn. -/
structure RenderResult where
  fontPathUsed : FontPath
  fontSizeUsed : ℤ
  imgWidth : ℤ
  imgHeight : ℤ
  drawX : ℤ
  drawY : ℤ
  fillColor : ℤ × ℤ × ℤ × ℤ
  drawnText : String
  deriving DecidableEq, Repr

/-- Font selection of `render_bengali_text_to_image` (lines 186-191):
pick bold or regular; if that file is missing fall back to the regular file;
if that is also missing raise `FileNotFoundError`. -/
def resolve_font (env : FontEnv) (bold : Bool) : Except RenderError FontPath :=
  let font_path := if bold then FontPath.bold else FontPath.regular
  if pathExists env font_path then Except.ok font_path
  else if pathExists env FontPath.regular then Except.ok FontPath.regular
  else Except.error RenderError.fileNotFound

/-- The measurement / allocation / draw part of
`render_bengali_text_to_image` (`bengali_text_helper.py` lines 198-230),
after a font was loaded successfully: measure the text's bbox, pad by
`padding_x = 10` horizontally and `padding_y = 5` vertically, floor both
dimensions at 10 (`int(max(.., 10))`), and draw the text at
`(padding_x - bbox.left, padding_y - bbox.top)` with alpha 255 appended to
the RGB color. -/
def render_body (measure : Measure) (font_path : FontPath) (text : String)
    (font_size : ℤ) (color : ℤ × ℤ × ℤ) : RenderResult :=
  let bbox := measure font_path font_size text
  let text_width := bbox.right - bbox.left
  let text_height := bbox.bottom - bbox.top
  let padding_x : ℤ := 10
  let padding_y : ℤ := 5
  let img_width := max (text_width + 2 * padding_x) 10
  let img_height := max (text_height + 2 * padding_y) 10
  let fill := (color.1, color.2.1, color.2.2, (255 : ℤ))
  { fontPathUsed := font_path
    fontSizeUsed := font_size
    imgWidth := img_width
    imgHeight := img_height
    drawX := padding_x - bbox.left
    drawY := padding_y - bbox.top
    fillColor := fill
    drawnText := text }

/-- `render_bengali_text_to_image(text, font_size, color, bold)` from
`bengali_text_helper.py` lines 166-230. Raises (returns `Except.error`)
when no font file is found or the font fails to load; otherwise measures,
allocates and draws via `render_body`. -/
def render_bengali_text_to_image (env : FontEnv) (measure : Measure)
    (text : String) (font_size : ℤ) (color : ℤ × ℤ × ℤ) (bold : Bool) :
    Except RenderError RenderResult :=
  let text := if text = "" then "" else text
  match resolve_font env bold with
  | Except.error e => Except.error e
  | Except.ok font_path =>
    if truetypeOk env font_path = false then Except.error RenderError.runtimeError
    else Except.ok (render_body measure font_path text font_size color)

/-- `register_bengali_fonts()` from `bengali_text_helper.py` lines 29-48:
returns immediately when the module-level flag is set, otherwise raises
`FileNotFoundError` if either font file is missing. -/
def register_bengali_fonts (env : FontEnv) : Except RenderError Unit :=
  if env.fontsRegistered then Except.ok ()
  else if env.regularExists = false then Except.error RenderError.fileNotFound
  else if env.boldExists = false then Except.error RenderError.fileNotFound
  else Except.ok ()

/-- A `Paragraph(...).drawOn(canvas, x, y)` call issued by the ReportLab
canvas helpers; records only the insertion point. -/
structure CanvasDraw where
  text : String
  x : ℚ
  y : ℚ
  deriving DecidableEq, Repr

/-- `draw_bn_text(canvas, text, x, y, ...)` from `bengali_text_helper.py`
lines 75-108: returns without drawing when `text` is falsy (empty string),
otherwise registers fonts (which may raise) and draws the wrapped paragraph
at `(x, y)`. -/
def draw_bn_text (env : FontEnv) (text : String) (x y : ℚ) :
    Except RenderError (Option CanvasDraw) :=
  if text = "" then Except.ok none
  else
    match register_bengali_fonts env with
    | Except.error e => Except.error e
    | Except.ok _ => Except.ok (some { text := text, x := x, y := y })

/-- `draw_bn_multiline(canvas, text, x, y, width, font_size, align)` from
`bengali_text_helper.py` lines 116-142: returns without drawing when `text`
is falsy, otherwise wraps the paragraph (the wrapped height `h` reported by
ReportLab is the collaborator parameter `wrapH`) and draws it at
`(x, y - h)`. The `font_size` argument only styles the paragraph; it does
not enter the insertion point. -/
def draw_bn_multiline (env : FontEnv) (wrapH : ℚ) (text : String)
    (x y : ℚ) (font_size : ℚ) : Except RenderError (Option CanvasDraw) :=
  let _ := font_size
  if text = "" then Except.ok none
  else
    match register_bengali_fonts env with
    | Except.error e => Except.error e
    | Except.ok _ => Except.ok (some { text := text, x := x, y := y - wrapH })

/-- Python's `text.split(' ')` on the character list: split at every single
space, keeping empty pieces (so consecutive spaces yield empty words and
`"".split(' ') == ['']`). -/
def splitSpaceChars : List Char → List (List Char)
  | [] => [[]]
  | c :: rest =>
    let r := splitSpaceChars rest
    if c = ' ' then [] :: r
    else
      match r with
      | [] => [[c]]
      | w :: ws => (c :: w) :: ws

/-- Python's `text.split(' ')`. -/
def pySplitSpace (text : String) : List String :=
  (splitSpaceChars text.data).map String.mk

/-- The word-wrap loop of `render_bengali_paragraph_to_image`
(`bengali_text_helper.py` lines 264-287), recursing over the word list with
the accumulated `current_line` and the lines emitted so far. `measure`
is the pixel width `bbox[2] - bbox[0]` of a candidate line. -/
def wrapLoop (measure : String → ℤ) (max_width : ℤ) :
    List String → String → List String → List String
  | [], current_line, lines =>
      let lines := if current_line ≠ "" then lines ++ [current_line] else lines
      if lines = [] then [""] else lines
  | word :: words, current_line, lines =>
      let test_line := if current_line ≠ "" then current_line ++ " " ++ word else word
      if measure test_line ≤ max_width then
        wrapLoop measure max_width words test_line lines
      else
        wrapLoop measure max_width words word
          (if current_line ≠ "" then lines ++ [current_line] else lines)

/-- The full word wrap of `render_bengali_paragraph_to_image`: split on
single spaces (`text.split(' ')`), pack greedily, and default to one empty
line when nothing was emitted. -/
def wrapWords (measure : String → ℤ) (max_width : ℤ) (text : String) :
    List String :=
  wrapLoop measure max_width (pySplitSpace text) "" []

/-- The observable outcome of `render_bengali_paragraph_to_image`: the font
size used, the wrapped lines, the bitmap dimensions, the `draw.text`
positions of the lines, and the fill color. -/
structure ParRenderResult where
  fontPathUsed : FontPath
  fontSizeUsed : ℤ
  lines : List String
  imgWidth : ℤ
  imgHeight : ℤ
  lineDrawPositions : List (ℤ × ℤ)
  fillColor : ℤ × ℤ × ℤ × ℤ
  deriving DecidableEq, Repr

/-- The wrap / allocation / draw part of `render_bengali_paragraph_to_image`
(`bengali_text_helper.py` lines 263-310), after a font was loaded
successfully: wrap the words greedily to `max_width`, set
`line_height = font_size + 4`, allocate a `max_width + 2*10` by
`len(lines)*line_height + 2*5` bitmap, and draw line `i` at
`(10, 5 + i*line_height)` with alpha 255 appended to the RGB color. -/
def par_body (measure : Measure) (font_path : FontPath) (text : String)
    (font_size : ℤ) (color : ℤ × ℤ × ℤ) (max_width : ℤ) : ParRenderResult :=
  let lineWidth := fun s => (measure font_path font_size s).right -
    (measure font_path font_size s).left
  let lines := wrapWords lineWidth max_width text
  let line_height := font_size + 4
  let total_height := (lines.length : ℤ) * line_height
  let padding_x : ℤ := 10
  let padding_y : ℤ := 5
  { fontPathUsed := font_path
    fontSizeUsed := font_size
    lines := lines
    imgWidth := max_width + 2 * padding_x
    imgHeight := total_height + 2 * padding_y
    lineDrawPositions := (List.range lines.length).map
      (fun i => (padding_x, padding_y + (i : ℤ) * line_height))
    fillColor := (color.1, color.2.1, color.2.2, (255 : ℤ)) }

/-- `render_bengali_paragraph_to_image(text, font_size, color, max_width,
bold)` from `bengali_text_helper.py` lines 233-310. Raises when the
requested font file is missing (no fallback to the other weight here,
unlike `render_bengali_text_to_image`) or the font fails to load;
otherwise wraps, allocates and draws via `par_body`. -/
def render_bengali_paragraph_to_image (env : FontEnv) (measure : Measure)
    (text : String) (font_size : ℤ) (color : ℤ × ℤ × ℤ) (max_width : ℤ)
    (bold : Bool) : Except RenderError ParRenderResult :=
  let text := if text = "" then "" else text
  let font_path := if bold then FontPath.bold else FontPath.regular
  if pathExists env font_path = false then Except.error RenderError.fileNotFound
  else if truetypeOk env font_path = false then Except.error RenderError.runtimeError
  else Except.ok (par_body measure font_path text font_size color max_width)

/-!
Embedding of the canvas text placement helpers of `id_card_generator.py`.
ReportLab coordinates are floats, modelled as `ℚ`; `c.stringWidth` is the
collaborator parameter `sw`. Font and fill-color canvas state is not
observable through these helpers' return values and is omitted.
-/

/-- `mm` from `reportlab.lib.units`: 72 points per inch / 25.4 mm. -/
def mm : ℚ := 72 / (254 / 10)

/-- `CARD_WIDTH = 54 * mm` from `id_card_generator.py` line 24. -/
def CARD_WIDTH : ℚ := 54 * mm

/-- Python's `text.strip()`: drop whitespace from both ends. -/
def pyStrip (text : String) : String :=
  String.mk
    (((text.data.dropWhile Char.isWhitespace).reverse.dropWhile
      Char.isWhitespace).reverse)

/-- The truncation step shared by `draw_text` and `draw_centered_text`:
`if max_chars and len(text) > max_chars: text = text[:max_chars-1] + "…"`.
`max_chars = None` or `0` is falsy and skips truncation; `text[:m-1]` is
the first `m - 1` characters. -/
def truncate_max_chars (text : String) (max_chars : Option ℕ) : String :=
  match max_chars with
  | none => text
  | some m =>
    if m ≠ 0 ∧ text.length > m then String.mk (text.data.take (m - 1)) ++ "…"
    else text

/-- Python truthiness of the optional `width` argument of `draw_text`:
`None` and `0` are falsy. -/
def widthTruthy : Option ℚ → Bool
  | none => false
  | some w => w ≠ 0

/-- A `c.drawString(x, y, text)` call. -/
structure StringDraw where
  x : ℚ
  y : ℚ
  text : String
  deriving DecidableEq, Repr

/-- The text preprocessing of `draw_text` / `draw_centered_text`:
`str(text).strip()` then optional ellipsis truncation. -/
def processText (text : String) (max_chars : Option ℕ) : String :=
  truncate_max_chars (pyStrip text) max_chars

/-- `draw_text(c, x, y, text, size, bold, color, centered, width, max_chars)`
from `id_card_generator.py` lines 64-82: returns without drawing when
`text` is falsy; strips and truncates the text; when `centered` and `width`
are truthy shifts `x` right by `(width - stringWidth(text)) / 2`; then
draws the text at `(x, y)`. -/
def draw_text (sw : String → ℚ) (x y : ℚ) (text : String)
    (centered : Bool) (width : Option ℚ) (max_chars : Option ℕ) :
    Option StringDraw :=
  if text = "" then none
  else
    let text := processText text max_chars
    let x := if centered ∧ widthTruthy width then
        let text_width := sw text
        x + ((width.getD 0) - text_width) / 2
      else x
    some { x := x, y := y, text := text }

/-- `draw_centered_text(c, y, text, size, bold, color, max_chars)` from
`id_card_generator.py` lines 85-98: returns without drawing when `text` is
falsy; strips and truncates; draws at
`x = (CARD_WIDTH - stringWidth(text)) / 2`. -/
def draw_centered_text (sw : String → ℚ) (y : ℚ) (text : String)
    (max_chars : Option ℕ) : Option StringDraw :=
  if text = "" then none
  else
    let text := processText text max_chars
    let text_width := sw text
    some { x := (CARD_WIDTH - text_width) / 2, y := y, text := text }

/-!
General lemmas about the embedded functions, shared by the claim theorems.
-/

/-- Inversion for a successful `render_bengali_text_to_image` call: some
font path was resolved and loaded, and the result is `render_body` at that
path on the falsy-normalized text. -/
theorem render_text_ok_inv (env : FontEnv) (measure : Measure) (text : String)
    (font_size : ℤ) (color : ℤ × ℤ × ℤ) (bold : Bool) (r : RenderResult)
    (h : render_bengali_text_to_image env measure text font_size color bold =
      Except.ok r) :
    ∃ fp, resolve_font env bold = Except.ok fp ∧ truetypeOk env fp = true ∧
      r = render_body measure fp (if text = "" then "" else text) font_size color := by
  unfold render_bengali_text_to_image at h
  rcases hres : resolve_font env bold with e | fp
  · rw [hres] at h
    simp at h
  · rw [hres] at h
    by_cases htr : truetypeOk env fp = false
    · simp [htr] at h
    · rw [Bool.not_eq_false] at htr
      refine ⟨fp, rfl, htr, ?_⟩
      simp [htr] at h
      exact h.symm

/-- Inversion for a successful `render_bengali_paragraph_to_image` call:
the result is `par_body` at the directly selected font path. -/
theorem render_par_ok_inv (env : FontEnv) (measure : Measure) (text : String)
    (font_size : ℤ) (color : ℤ × ℤ × ℤ) (max_width : ℤ) (bold : Bool)
    (r : ParRenderResult)
    (h : render_bengali_paragraph_to_image env measure text font_size color
      max_width bold = Except.ok r) :
    r = par_body measure (if bold then FontPath.bold else FontPath.regular)
      (if text = "" then "" else text) font_size color max_width := by
  unfold render_bengali_paragraph_to_image at h
  by_cases hp : pathExists env (if bold then FontPath.bold else FontPath.regular) = false
  · simp [hp] at h
  · by_cases htr : truetypeOk env (if bold then FontPath.bold else FontPath.regular) = false
    · simp [hp, htr] at h
    · simp only [hp, htr, if_false] at h
      simpa using h.symm

/-- The word-wrap loop never produces an empty line list. -/
theorem wrapLoop_ne_nil (measure : String → ℤ) (max_width : ℤ)
    (words : List String) (current_line : String) (lines : List String) :
    wrapLoop measure max_width words current_line lines ≠ [] := by
  induction words generalizing current_line lines with
  | nil =>
      simp only [wrapLoop]
      split <;> split <;> simp_all
  | cons word words ih =>
      simp only [wrapLoop]
      split <;> split <;> exact ih _ _

/-- The word wrap never produces an empty line list (`if not lines:
lines = [""]` in the source). -/
theorem wrapWords_ne_nil (measure : String → ℤ) (max_width : ℤ)
    (text : String) : wrapWords measure max_width text ≠ [] :=
  wrapLoop_ne_nil measure max_width _ "" []

/-!
Claim theorems.
-/

/-- C1 counterexample: with both font files absent,
`render_bengali_text_to_image` raises `FileNotFoundError` to its caller
instead of returning a heuristic `0.6 × pointSize × len(text)` estimate —
the claimed never-throws fallback path does not exist in the code. -/
theorem C1_counterexample :
    render_bengali_text_to_image ⟨false, false, true, true, false⟩
      (fun _ _ _ => ⟨0, 0, 0, 0⟩) "abc" 16 (0, 0, 0) false
      = Except.error RenderError.fileNotFound := by rfl

/-- C1 (amended): `render_bengali_text_to_image` does not fail gracefully:
when neither font file exists, it raises `FileNotFoundError` to the caller
for every input text, size, color and weight; no heuristic width/height
fallback is produced. -/
theorem C1_raises_when_fonts_missing (env : FontEnv) (measure : Measure)
    (text : String) (font_size : ℤ) (color : ℤ × ℤ × ℤ) (bold : Bool)
    (hreg : env.regularExists = false) (hbold : env.boldExists = false) :
    render_bengali_text_to_image env measure text font_size color bold
      = Except.error RenderError.fileNotFound := by
  unfold render_bengali_text_to_image resolve_font
  cases bold <;> simp [pathExists, hreg, hbold]

/-- C1 witness: the amended statement at a concrete input. -/
theorem C1_raises_when_fonts_missing_witness :
    ((⟨false, false, true, true, false⟩ : FontEnv).regularExists = false)
    ∧ ((⟨false, false, true, true, false⟩ : FontEnv).boldExists = false)
    ∧ render_bengali_text_to_image ⟨false, false, true, true, false⟩
        (fun _ _ _ => ⟨0, 0, 0, 0⟩) "hello" 16 (0, 0, 0) true
      = Except.error RenderError.fileNotFound :=
  ⟨rfl, rfl,
    C1_raises_when_fonts_missing ⟨false, false, true, true, false⟩
      (fun _ _ _ => ⟨0, 0, 0, 0⟩) "hello" 16 (0, 0, 0) true rfl rfl⟩

/-- C2 counterexample: the font is loaded at the requested size (16, not
4 × 16), and the reported dimensions are the raw bitmap dimensions
themselves (70 × 30 for a 50 × 20 bbox), not the raw dimensions divided
by 4 within 1 pixel — there is no oversampling in the code. -/
theorem C2_counterexample :
    (render_bengali_text_to_image ⟨true, true, true, true, true⟩
        (fun _ _ _ => ⟨0, 0, 50, 20⟩) "hello" 16 (0, 0, 0) false).map
        (fun r => (r.fontSizeUsed, r.imgWidth, r.imgHeight))
      = Except.ok ((16 : ℤ), (70 : ℤ), (30 : ℤ))
    ∧ (16 : ℤ) ≠ 4 * 16
    ∧ ¬((70 : ℤ) - 70 / 4 ≤ 1 ∧ (70 : ℤ) / 4 - 70 ≤ 1) := by
  refine ⟨by rfl, by decide, by decide⟩

/-- C2 (amended): `render_bengali_text_to_image` applies no oversampling:
every successful call loads the font at exactly the requested point size
(scale factor 1), and the reported dimensions are the raw bitmap's own
dimensions. -/
theorem C2_no_oversampling (env : FontEnv) (measure : Measure)
    (text : String) (font_size : ℤ) (color : ℤ × ℤ × ℤ) (bold : Bool)
    (r : RenderResult)
    (h : render_bengali_text_to_image env measure text font_size color bold
      = Except.ok r) :
    r.fontSizeUsed = font_size := by
  obtain ⟨fp, -, -, hr⟩ :=
    render_text_ok_inv env measure text font_size color bold r h
  subst hr
  rfl

/-- C2 witness: the amended statement at a concrete input. -/
theorem C2_no_oversampling_witness :
    render_bengali_text_to_image ⟨true, true, true, true, true⟩
        (fun _ _ _ => ⟨0, 0, 50, 20⟩) "hello" 16 (0, 0, 0) false
      = Except.ok ⟨FontPath.regular, 16, 70, 30, 10, 5, (0, 0, 0, 255), "hello"⟩
    ∧ (⟨FontPath.regular, 16, 70, 30, 10, 5, (0, 0, 0, 255), "hello"⟩ :
        RenderResult).fontSizeUsed = 16 :=
  ⟨by rfl,
    C2_no_oversampling ⟨true, true, true, true, true⟩
      (fun _ _ _ => ⟨0, 0, 50, 20⟩) "hello" 16 (0, 0, 0) false
      ⟨FontPath.regular, 16, 70, 30, 10, 5, (0, 0, 0, 255), "hello"⟩ (by rfl)⟩

/-- C3: for every non-empty input on which `render_bengali_text_to_image`
succeeds, the result's width and height are strictly positive — the
`int(max(.., 10))` floor rules out zero or negative extents. -/
theorem C3_nonempty_positive_dimensions (env : FontEnv) (measure : Measure)
    (text : String) (font_size : ℤ) (color : ℤ × ℤ × ℤ) (bold : Bool)
    (r : RenderResult) (htext : text ≠ "")
    (h : render_bengali_text_to_image env measure text font_size color bold
      = Except.ok r) :
    0 < r.imgWidth ∧ 0 < r.imgHeight := by
  obtain ⟨fp, -, -, hr⟩ :=
    render_text_ok_inv env measure text font_size color bold r h
  subst hr
  simp only [render_body]
  exact ⟨lt_of_lt_of_le (by norm_num) (le_max_right _ _),
    lt_of_lt_of_le (by norm_num) (le_max_right _ _)⟩

/-- C3 witness: the statement at a concrete input. -/
theorem C3_nonempty_positive_dimensions_witness :
    (("hello" : String) ≠ "")
    ∧ render_bengali_text_to_image ⟨true, true, true, true, true⟩
        (fun _ _ _ => ⟨0, 0, 50, 20⟩) "hello" 16 (0, 0, 0) false
      = Except.ok ⟨FontPath.regular, 16, 70, 30, 10, 5, (0, 0, 0, 255), "hello"⟩
    ∧ (0 < (⟨FontPath.regular, 16, 70, 30, 10, 5, (0, 0, 0, 255), "hello"⟩ :
        RenderResult).imgWidth
      ∧ 0 < (⟨FontPath.regular, 16, 70, 30, 10, 5, (0, 0, 0, 255), "hello"⟩ :
        RenderResult).imgHeight) :=
  ⟨by decide, by rfl,
    C3_nonempty_positive_dimensions ⟨true, true, true, true, true⟩
      (fun _ _ _ => ⟨0, 0, 50, 20⟩) "hello" 16 (0, 0, 0) false
      ⟨FontPath.regular, 16, 70, 30, 10, 5, (0, 0, 0, 255), "hello"⟩
      (by decide) (by rfl)⟩

/-- C4 counterexample: for empty input `render_bengali_text_to_image` is
not a no-op — it allocates a 20 × 10 bitmap (padding plus minimum-size
floor), not a zero-size result. -/
theorem C4_counterexample :
    (render_bengali_text_to_image ⟨true, true, true, true, true⟩
        (fun _ _ _ => ⟨0, 0, 0, 0⟩) "" 16 (0, 0, 0) false).map
        (fun r => (r.imgWidth, r.imgHeight))
      = Except.ok ((20 : ℤ), (10 : ℤ))
    ∧ ((20 : ℤ), (10 : ℤ)) ≠ ((0 : ℤ), (0 : ℤ)) :=
  ⟨by rfl, by decide⟩

/-- C4 (amended): for empty input the rasterizer still allocates a bitmap
whose dimensions are at least 10 (never zero) and draws into it; only the
canvas helper `draw_bn_text` skips the draw call for empty text, and a
whitespace-only string is truthy in Python, so it is drawn normally. -/
theorem C4_empty_input_behavior (envA envB envC : FontEnv)
    (measure : Measure) (font_size : ℤ) (color : ℤ × ℤ × ℤ) (bold : Bool)
    (r : RenderResult) (x y : ℚ)
    (h : render_bengali_text_to_image envA measure "" font_size color bold
      = Except.ok r)
    (hreg : envC.fontsRegistered = true) :
    (10 ≤ r.imgWidth ∧ 10 ≤ r.imgHeight)
    ∧ draw_bn_text envB "" x y = Except.ok none
    ∧ draw_bn_text envC " " x y = Except.ok (some ⟨" ", x, y⟩) := by
  obtain ⟨fp, -, -, hr⟩ :=
    render_text_ok_inv envA measure "" font_size color bold r h
  subst hr
  refine ⟨⟨?_, ?_⟩, ?_, ?_⟩
  · simp only [render_body]
    exact le_max_right _ _
  · simp only [render_body]
    exact le_max_right _ _
  · rfl
  · simp [draw_bn_text, register_bengali_fonts, hreg]

/-- C4 witness: the amended statement at concrete inputs. -/
theorem C4_empty_input_behavior_witness :
    render_bengali_text_to_image ⟨true, true, true, true, true⟩
        (fun _ _ _ => ⟨0, 0, 0, 0⟩) "" 16 (0, 0, 0) false
      = Except.ok ⟨FontPath.regular, 16, 20, 10, 10, 5, (0, 0, 0, 255), ""⟩
    ∧ ((⟨true, true, true, true, true⟩ : FontEnv).fontsRegistered = true)
    ∧ ((10 ≤ (⟨FontPath.regular, 16, 20, 10, 10, 5, (0, 0, 0, 255), ""⟩ :
          RenderResult).imgWidth
        ∧ 10 ≤ (⟨FontPath.regular, 16, 20, 10, 10, 5, (0, 0, 0, 255), ""⟩ :
          RenderResult).imgHeight)
      ∧ draw_bn_text ⟨true, true, true, true, true⟩ "" 1 2 = Except.ok none
      ∧ draw_bn_text ⟨true, true, true, true, true⟩ " " 1 2
        = Except.ok (some ⟨" ", 1, 2⟩)) :=
  ⟨by rfl, rfl,
    C4_empty_input_behavior ⟨true, true, true, true, true⟩
      ⟨true, true, true, true, true⟩ ⟨true, true, true, true, true⟩
      (fun _ _ _ => ⟨0, 0, 0, 0⟩) 16 (0, 0, 0) false
      ⟨FontPath.regular, 16, 20, 10, 10, 5, (0, 0, 0, 255), ""⟩ 1 2
      (by rfl) rfl⟩

/-- C5 counterexample: with the bold file missing but the regular file
present, `render_bengali_paragraph_to_image` with `bold=True` raises
`FileNotFoundError` instead of substituting the regular weight — the
claimed universal silent fallback chain does not exist. -/
theorem C5_counterexample :
    render_bengali_paragraph_to_image ⟨true, false, true, true, true⟩
      (fun _ _ _ => ⟨0, 0, 0, 0⟩) "hello" 12 (0, 0, 0) 400 true
      = Except.error RenderError.fileNotFound := by rfl

/-- C5 (amended): only `render_bengali_text_to_image` falls back, and only
one step: a missing bold file is silently replaced by the regular file,
but when the regular file is also missing there is no built-in third
fallback — `FileNotFoundError` is surfaced to the caller; and
`render_bengali_paragraph_to_image` performs no substitution at all,
raising whenever the requested face's file is missing. -/
theorem C5_font_fallback_chain (envA envB envC : FontEnv)
    (measure : Measure) (text : String) (font_size : ℤ)
    (color : ℤ × ℤ × ℤ) (max_width : ℤ) (bold : Bool)
    (hA1 : envA.boldExists = false) (hA2 : envA.regularExists = true)
    (hA3 : envA.truetypeOkRegular = true)
    (hB1 : envB.regularExists = false) (hB2 : envB.boldExists = false)
    (hC : envC.boldExists = false) :
    (render_bengali_text_to_image envA measure text font_size color true).map
        RenderResult.fontPathUsed = Except.ok FontPath.regular
    ∧ render_bengali_text_to_image envB measure text font_size color bold
      = Except.error RenderError.fileNotFound
    ∧ render_bengali_paragraph_to_image envC measure text font_size color
        max_width true = Except.error RenderError.fileNotFound := by
  refine ⟨?_, ?_, ?_⟩
  · have h : render_bengali_text_to_image envA measure text font_size color true
        = Except.ok (render_body measure FontPath.regular
            (if text = "" then "" else text) font_size color) := by
      simp [render_bengali_text_to_image, resolve_font, pathExists, truetypeOk,
        hA1, hA2, hA3]
    rw [h]
    rfl
  · unfold render_bengali_text_to_image resolve_font
    cases bold <;> simp [pathExists, hB1, hB2]
  · simp [render_bengali_paragraph_to_image, pathExists, hC]

/-- C5 witness: the amended statement at concrete inputs. -/
theorem C5_font_fallback_chain_witness :
    ((⟨true, false, true, true, true⟩ : FontEnv).boldExists = false)
    ∧ ((⟨true, false, true, true, true⟩ : FontEnv).regularExists = true)
    ∧ ((⟨true, false, true, true, true⟩ : FontEnv).truetypeOkRegular = true)
    ∧ ((⟨false, false, true, true, true⟩ : FontEnv).regularExists = false)
    ∧ ((⟨false, false, true, true, true⟩ : FontEnv).boldExists = false)
    ∧ ((render_bengali_text_to_image ⟨true, false, true, true, true⟩
          (fun _ _ _ => ⟨0, 0, 0, 0⟩) "hi" 9 (0, 0, 0) true).map
          RenderResult.fontPathUsed = Except.ok FontPath.regular
      ∧ render_bengali_text_to_image ⟨false, false, true, true, true⟩
          (fun _ _ _ => ⟨0, 0, 0, 0⟩) "hi" 9 (0, 0, 0) false
        = Except.error RenderError.fileNotFound
      ∧ render_bengali_paragraph_to_image ⟨true, false, true, true, true⟩
          (fun _ _ _ => ⟨0, 0, 0, 0⟩) "hi" 9 (0, 0, 0) 400 true
        = Except.error RenderError.fileNotFound) :=
  ⟨rfl, rfl, rfl, rfl, rfl,
    C5_font_fallback_chain ⟨true, false, true, true, true⟩
      ⟨false, false, true, true, true⟩ ⟨true, false, true, true, true⟩
      (fun _ _ _ => ⟨0, 0, 0, 0⟩) "hi" 9 (0, 0, 0) 400 false
      rfl rfl rfl rfl rfl rfl⟩

/-- C6: the word wrap is greedy over whitespace-delimited tokens; for
"ABCDE FGHIJ KLMNO" with a width measure equal to string length and
`max_width = 11` (exactly two tokens), it emits exactly the two lines
"ABCDE FGHIJ" and "KLMNO" — both through the full paragraph renderer and
through the wrap routine directly — and a token wider than `max_width`
("XXXXXXX" at `max_width = 4`) is placed alone on its own line with no
mid-word breaking. -/
theorem C6_word_wrap_greedy :
    (render_bengali_paragraph_to_image ⟨true, true, true, true, true⟩
        (fun _ _ s => ⟨0, 0, (s.length : ℤ), 10⟩) "ABCDE FGHIJ KLMNO" 12
        (0, 0, 0) 11 false).map ParRenderResult.lines
      = Except.ok ["ABCDE FGHIJ", "KLMNO"]
    ∧ wrapWords (fun s => (s.length : ℤ)) 11 "ABCDE FGHIJ KLMNO"
      = ["ABCDE FGHIJ", "KLMNO"]
    ∧ wrapWords (fun s => (s.length : ℤ)) 4 "aa XXXXXXX bb"
      = ["aa", "XXXXXXX", "bb"] :=
  ⟨by rfl, by rfl, by rfl⟩

/-- C7: for `centered=true` with a truthy available width `W` at least the
rendered text width `w` (`w ≥ 0`), the draw x-coordinate of `draw_text`
exceeds the anchor by exactly `(W − w) / 2`; `draw_centered_text` likewise
draws at `(CARD_WIDTH − w) / 2` from the page's left edge. -/
theorem C7_centering_offset (sw : String → ℚ) (x y W : ℚ) (text : String)
    (max_chars : Option ℕ) (htext : text ≠ "")
    (h0 : 0 ≤ sw (processText text max_chars))
    (hW : sw (processText text max_chars) ≤ W) :
    (draw_text sw x y text true (some W) max_chars).map (fun d => d.x - x)
      = some ((W - sw (processText text max_chars)) / 2)
    ∧ (draw_centered_text sw y text max_chars).map (fun d => d.x)
      = some ((CARD_WIDTH - sw (processText text max_chars)) / 2) := by
  constructor
  · by_cases hw : W = 0
    · subst hw
      have h1 : sw (processText text max_chars) = 0 := le_antisymm hW h0
      simp [draw_text, htext, widthTruthy, h1]
    · simp only [draw_text, if_neg htext, widthTruthy]
      rw [if_pos]
      · simp only [Option.map_some', Option.getD_some]
        congr 1
        ring
      · simp [hw]
  · simp [draw_centered_text, htext]

/-- C7 witness: the statement at a concrete input. -/
theorem C7_centering_offset_witness :
    (("abc" : String) ≠ "")
    ∧ (0 ≤ (fun s => (s.length : ℚ)) (processText "abc" none))
    ∧ ((fun s => (s.length : ℚ)) (processText "abc" none) ≤ 10)
    ∧ ((draw_text (fun s => (s.length : ℚ)) 1 2 "abc" true (some 10) none).map
          (fun d => d.x - 1)
        = some ((10 - (fun s => (s.length : ℚ)) (processText "abc" none)) / 2)
      ∧ (draw_centered_text (fun s => (s.length : ℚ)) 2 "abc" none).map
          (fun d => d.x)
        = some ((CARD_WIDTH -
            (fun s => (s.length : ℚ)) (processText "abc" none)) / 2)) :=
  ⟨by decide, by decide, by decide,
    C7_centering_offset (fun s => (s.length : ℚ)) 1 2 10 "abc" none
      (by decide) (by decide) (by decide)⟩

/-- C8 counterexample: for a 50 × 20 bbox with zero offsets, the allocated
bitmap is 70 × 30 and the draw position is (10, 5): the total horizontal
padding (70 − 50 = 20) differs from the total vertical padding
(30 − 20 = 10), and the draw position uses two different padding constants
(10 ≠ 5) — so there is no single per-side padding amount as the claim's
`(padding − leftOffset, padding − topOffset)` requires. -/
theorem C8_counterexample :
    (render_bengali_text_to_image ⟨true, true, true, true, true⟩
        (fun _ _ _ => ⟨0, 0, 50, 20⟩) "hello" 16 (0, 0, 0) false).map
        (fun r => (r.imgWidth, r.imgHeight, r.drawX, r.drawY))
      = Except.ok ((70 : ℤ), (30 : ℤ), (10 : ℤ), (5 : ℤ))
    ∧ (70 : ℤ) - 50 ≠ (30 : ℤ) - 20
    ∧ (10 : ℤ) ≠ (5 : ℤ) :=
  ⟨by rfl, by decide, by decide⟩

/-- C8 (amended): for every successful call whose measured bbox is
non-degenerate, the bitmap is the bbox plus per-axis symmetric padding —
10 px on each horizontal side and 5 px on each vertical side — the glyph
run is drawn at `(10 − leftOffset, 5 − topOffset)`, and the RGB fill color
gets full opacity alpha 255. -/
theorem C8_padded_allocation (env : FontEnv) (measure : Measure)
    (text : String) (font_size : ℤ) (color : ℤ × ℤ × ℤ) (bold : Bool)
    (r : RenderResult)
    (h : render_bengali_text_to_image env measure text font_size color bold
      = Except.ok r)
    (hw : (measure r.fontPathUsed font_size r.drawnText).left
      ≤ (measure r.fontPathUsed font_size r.drawnText).right)
    (hh : (measure r.fontPathUsed font_size r.drawnText).top
      ≤ (measure r.fontPathUsed font_size r.drawnText).bottom) :
    r.imgWidth = ((measure r.fontPathUsed font_size r.drawnText).right
        - (measure r.fontPathUsed font_size r.drawnText).left) + 2 * 10
    ∧ r.imgHeight = ((measure r.fontPathUsed font_size r.drawnText).bottom
        - (measure r.fontPathUsed font_size r.drawnText).top) + 2 * 5
    ∧ r.drawX = 10 - (measure r.fontPathUsed font_size r.drawnText).left
    ∧ r.drawY = 5 - (measure r.fontPathUsed font_size r.drawnText).top
    ∧ r.fillColor = (color.1, color.2.1, color.2.2, 255) := by
  obtain ⟨fp, -, -, hr⟩ :=
    render_text_ok_inv env measure text font_size color bold r h
  subst hr
  simp only [render_body] at hw hh
  refine ⟨?_, ?_, rfl, rfl, rfl⟩
  · exact max_eq_left (by linarith)
  · exact max_eq_left (by linarith)

/-- C8 witness: the amended statement at a concrete input. -/
theorem C8_padded_allocation_witness :
    render_bengali_text_to_image ⟨true, true, true, true, true⟩
        (fun _ _ _ => ⟨0, 0, 50, 20⟩) "hello" 16 (0, 0, 0) false
      = Except.ok ⟨FontPath.regular, 16, 70, 30, 10, 5, (0, 0, 0, 255), "hello"⟩
    ∧ ((0 : ℤ) ≤ 50 ∧ (0 : ℤ) ≤ 20)
    ∧ ((70 : ℤ) = (50 - 0) + 2 * 10 ∧ (30 : ℤ) = (20 - 0) + 2 * 5
      ∧ (10 : ℤ) = 10 - 0 ∧ (5 : ℤ) = 5 - 0
      ∧ ((0 : ℤ), (0 : ℤ), (0 : ℤ), (255 : ℤ)) = (0, 0, 0, 255)) :=
  ⟨by rfl, ⟨by decide, by decide⟩,
    C8_padded_allocation ⟨true, true, true, true, true⟩
      (fun _ _ _ => ⟨0, 0, 50, 20⟩) "hello" 16 (0, 0, 0) false
      ⟨FontPath.regular, 16, 70, 30, 10, 5, (0, 0, 0, 255), "hello"⟩
      (by rfl) (by decide) (by decide)⟩

/-- C9 counterexample: `draw_bn_multiline` at anchor y = 100 with wrapped
height 30 and font size 8 inserts the paragraph at y = 100 − 30 = 70, not
at 100 − 30 + 0.3 × 8 = 72.4 — there is no baseline-compensation term in
the code. -/
theorem C9_counterexample :
    draw_bn_multiline ⟨true, true, true, true, true⟩ 30 "hello" 5 100 8
      = Except.ok (some ⟨"hello", 5, 70⟩)
    ∧ (70 : ℚ) ≠ 100 - 30 + (3 / 10) * 8 := by
  constructor
  · have h : draw_bn_multiline ⟨true, true, true, true, true⟩ 30 "hello" 5 100 8
        = Except.ok (some ⟨"hello", 5, (100 : ℚ) - 30⟩) := by
      simp [draw_bn_multiline, register_bengali_fonts]
    rw [h]
    norm_num
  · norm_num

/-- C9 (amended): when a wrapped text block is placed on the canvas by
`draw_bn_multiline`, the vertical insertion coordinate equals the anchor y
minus the full wrapped height, with no baseline-compensation term — the
point size does not enter the insertion coordinate at all. -/
theorem C9_insertion_point (env : FontEnv) (wrapH : ℚ) (text : String)
    (x y font_size : ℚ) (htext : text ≠ "")
    (hreg : env.fontsRegistered = true) :
    draw_bn_multiline env wrapH text x y font_size
      = Except.ok (some ⟨text, x, y - wrapH⟩) := by
  simp [draw_bn_multiline, register_bengali_fonts, htext, hreg]

/-- C9 witness: the amended statement at a concrete input. -/
theorem C9_insertion_point_witness :
    (("hello" : String) ≠ "")
    ∧ ((⟨true, true, true, true, true⟩ : FontEnv).fontsRegistered = true)
    ∧ draw_bn_multiline ⟨true, true, true, true, true⟩ 30 "hello" 5 100 8
      = Except.ok (some ⟨"hello", 5, 100 - 30⟩) :=
  ⟨by decide, rfl,
    C9_insertion_point ⟨true, true, true, true, true⟩ 30 "hello" 5 100 8
      (by decide) rfl⟩

/-- C10: every successful `render_bengali_paragraph_to_image` call returns
an image exactly `max_width + 20` pixels wide (10 px padding each side,
independent of the rendered line widths) and `len(lines) * (font_size + 4)
+ 10` pixels tall, with at least one line. -/
theorem C10_paragraph_dimensions (env : FontEnv) (measure : Measure)
    (text : String) (font_size : ℤ) (color : ℤ × ℤ × ℤ) (max_width : ℤ)
    (bold : Bool) (r : ParRenderResult)
    (h : render_bengali_paragraph_to_image env measure text font_size color
      max_width bold = Except.ok r) :
    r.imgWidth = max_width + 20
    ∧ r.imgHeight = (r.lines.length : ℤ) * (font_size + 4) + 10
    ∧ 1 ≤ r.lines.length := by
  have hr := render_par_ok_inv env measure text font_size color max_width bold
    r h
  subst hr
  refine ⟨?_, ?_, ?_⟩
  · simp only [par_body]
    ring
  · simp only [par_body]
    ring
  · simpa [par_body] using
      List.length_pos.mpr (wrapWords_ne_nil _ max_width _)

/-- C10 witness: the statement at a concrete input. -/
theorem C10_paragraph_dimensions_witness :
    render_bengali_paragraph_to_image ⟨true, true, true, true, true⟩
        (fun _ _ s => ⟨0, 0, (s.length : ℤ), 10⟩) "ABCDE FGHIJ KLMNO" 12
        (0, 0, 0) 11 false
      = Except.ok ⟨FontPath.regular, 12, ["ABCDE FGHIJ", "KLMNO"], 31, 42,
          [(10, 5), (10, 21)], (0, 0, 0, 255)⟩
    ∧ ((31 : ℤ) = 11 + 20
      ∧ (42 : ℤ) = ((["ABCDE FGHIJ", "KLMNO"] : List String).length : ℤ)
          * (12 + 4) + 10
      ∧ 1 ≤ (["ABCDE FGHIJ", "KLMNO"] : List String).length) :=
  ⟨by rfl,
    C10_paragraph_dimensions ⟨true, true, true, true, true⟩
      (fun _ _ s => ⟨0, 0, (s.length : ℤ), 10⟩) "ABCDE FGHIJ KLMNO" 12
      (0, 0, 0) 11 false
      ⟨FontPath.regular, 12, ["ABCDE FGHIJ", "KLMNO"], 31, 42,
        [(10, 5), (10, 21)], (0, 0, 0, 255)⟩ (by rfl)⟩

end MadrasaCard
